import Mathlib

/-!
Shallow embedding of the metricplugin package of ipfs-metric-exporter.

The data and status types are translated from metricplugin/api.go. That file
declares the MonitoringAPI (event subscription registry) and RPCAPI
(broadcast coordinator) interfaces but their implementations are not part of
the source tree, so the behaviour of Subscribe, Unsubscribe, event dispatch
and the three broadcast operations is modelled from the specification, as
marked on each definition.

Time is modelled as a natural number of milliseconds; errors as Option
String (none meaning the Go nil error); cid.Cid, peer.ID and ma.Multiaddr
as abstract scalar types.
-/

namespace MetricPlugin

/-- Content identifier, modelled abstractly. Corresponds to cid.Cid. -/
abbrev Cid := Nat

/-- Peer identifier. Corresponds to peer.ID, which is a string. -/
abbrev PeerID := String

/-- Underlay network address. Corresponds to ma.Multiaddr. -/
abbrev Multiaddr := String

/-- Wantlist want type, from pbmsg.Message_Wantlist_WantType. -/
inductive WantType
  | wantBlock
  | wantHave
deriving DecidableEq, Repr

/-- A wantlist entry, corresponding to bsmsg.Entry. -/
structure Entry where
  cid : Cid
  priority : Int
  wantType : WantType
  cancel : Bool
  sendDontHave : Bool
deriving DecidableEq, Repr

/-- BlockPresenceType is an enum for presence or absence notifications. -/
inductive BlockPresenceType
  | Have
  | DontHave
deriving DecidableEq, Repr

/-- A BlockPresence indicates the presence or absence of a block. -/
structure BlockPresence where
  cid : Cid
  type : BlockPresenceType
deriving DecidableEq, Repr

/-- ConnectionEventType specifies the type of connection event. -/
inductive ConnectionEventType
  | Connected
  | Disconnected
deriving DecidableEq, Repr

/-- A BitswapMessage is the type pushed to remote clients for recorded
incoming Bitswap messages. -/
structure BitswapMessage where
  wantlistEntries : List Entry
  fullWantList : Bool
  blocks : List Cid
  blockPresences : List BlockPresence
  connectedAddresses : List Multiaddr
deriving DecidableEq, Repr

/-- A ConnectionEvent is the type pushed to remote clients for recorded
connection events. -/
structure ConnectionEvent where
  remote : Multiaddr
  connectionEventType : ConnectionEventType
deriving DecidableEq, Repr

/-- BroadcastSendStatus contains basic information about a send operation to
a single peer as part of a Bitswap broadcast. -/
structure BroadcastSendStatus where
  timestampBeforeSend : Nat
  sendDurationMillis : Int
  error : Option String
deriving DecidableEq, Repr

/-- BroadcastStatus contains additional basic information about a send
operation to a single peer; in Go it embeds BroadcastSendStatus, modelled
here as the sendStatus field. The connectedAddresses field holds the
underlay addresses of the peer the message was sent over, or is empty if
there was an error. -/
structure BroadcastStatus where
  sendStatus : BroadcastSendStatus
  peer : PeerID
  connectedAddresses : List Multiaddr
deriving DecidableEq, Repr

/-- BroadcastWantStatus describes the status of a send operation to a single
peer as part of a Bitswap WANT broadcast. -/
structure BroadcastWantStatus where
  status : BroadcastStatus
  requestTypeSent : Option WantType
deriving DecidableEq, Repr

/-- BroadcastCancelStatus describes the status of a send operation to a
single peer as part of a Bitswap CANCEL broadcast. -/
structure BroadcastCancelStatus where
  status : BroadcastStatus
deriving DecidableEq, Repr

/-- BroadcastWantCancelWantStatus contains information about the send-WANT
operation to a single peer as part of a Bitswap WANT+CANCEL broadcast. -/
structure BroadcastWantCancelWantStatus where
  sendStatus : BroadcastSendStatus
  requestTypeSent : Option WantType
deriving DecidableEq, Repr

/-- BroadcastWantCancelStatus describes the status of a send operation to a
single peer as part of a Bitswap WANT+CANCEL broadcast. -/
structure BroadcastWantCancelStatus where
  peer : PeerID
  connectedAddresses : List Multiaddr
  wantStatus : BroadcastWantCancelWantStatus
  cancelStatus : BroadcastSendStatus
deriving DecidableEq, Repr

/-- Modelled from the spec: one Peer Directory entry, as supplied by the
external ConnectedPeers collaborator (spec section 6); the directory
implementation is not under src. The acceptsBlocks flag is the advertised
capability deciding want-block versus want-have. -/
structure PeerInfo where
  peer : PeerID
  connected : Bool
  supportsBitswap : Bool
  acceptsBlocks : Bool
  addresses : List Multiaddr
deriving DecidableEq, Repr

/-- Modelled from the spec: the result of one Protocol Transport send call,
which reports elapsed duration, the underlay addresses used, and an
optional error (spec section 6); the transport implementation is not under
src. -/
structure TransportResult where
  durationMillis : Int
  addresses : List Multiaddr
  error : Option String
deriving DecidableEq, Repr

/-- Modelled from the spec: the Protocol Transport collaborator, a function
from peer identifier and constructed message to a send result. -/
abbrev Transport := PeerID → List Entry → TransportResult

/-- Modelled from the spec: the broadcast targeting criterion, connected
plus protocol-capable (spec sections 4.2 and 8). -/
def targeted (p : PeerInfo) : Bool :=
  p.connected && p.supportsBitswap

/-- Modelled from the spec: the peer set snapshotted once at the start of a
broadcast operation, restricted to the targeted peers. -/
def targetPeers (dir : List PeerInfo) : List PeerInfo :=
  dir.filter targeted

/-- Modelled from the spec: the per-peer want-type policy, prefer want-block
unless the capability set of the peer indicates it cannot accept full
blocks, in which case use want-have (spec section 4.2). -/
def chooseWantType (p : PeerInfo) : WantType :=
  if p.acceptsBlocks then .wantBlock else .wantHave

/-- Modelled from the spec: the single WANT message built for one peer, one
entry per requested content identifier, all with the chosen want type. The
spec does not fix priority or sendDontHave; they are constants here. -/
def buildWantMessage (cids : List Cid) (wt : WantType) : List Entry :=
  cids.map fun c =>
    { cid := c, priority := 1, wantType := wt, cancel := false, sendDontHave := false }

/-- Modelled from the spec: the single CANCEL message built for one peer,
one cancel entry per requested content identifier. -/
def buildCancelMessage (cids : List Cid) : List Entry :=
  cids.map fun c =>
    { cid := c, priority := 1, wantType := .wantBlock, cancel := true, sendDontHave := false }

/-- Modelled from the spec: the send-WANT attempt to a single targeted peer
and the status record built from the transport result; addresses are
recorded only on success (api.go BroadcastStatus comment). -/
def sendWantToPeer (t : Transport) (now : Nat) (cids : List Cid) (p : PeerInfo) :
    BroadcastWantStatus :=
  let wt := chooseWantType p
  let r := t p.peer (buildWantMessage cids wt)
  { status :=
      { sendStatus :=
          { timestampBeforeSend := now
            sendDurationMillis := r.durationMillis
            error := r.error }
        peer := p.peer
        connectedAddresses := if r.error.isNone then r.addresses else [] }
    requestTypeSent := some wt }

/-- Modelled from the spec: the send-CANCEL attempt to a single targeted
peer and the status record built from the transport result. -/
def sendCancelToPeer (t : Transport) (now : Nat) (cids : List Cid) (p : PeerInfo) :
    BroadcastCancelStatus :=
  let r := t p.peer (buildCancelMessage cids)
  { status :=
      { sendStatus :=
          { timestampBeforeSend := now
            sendDurationMillis := r.durationMillis
            error := r.error }
        peer := p.peer
        connectedAddresses := if r.error.isNone then r.addresses else [] } }

/-- Modelled from the spec: BroadcastBitswapWant, one status per targeted
peer of the directory snapshot (the coordinator implementation is not under
src). -/
def BroadcastBitswapWant (t : Transport) (now : Nat) (dir : List PeerInfo)
    (cids : List Cid) : List BroadcastWantStatus :=
  (targetPeers dir).map (sendWantToPeer t now cids)

/-- Modelled from the spec: BroadcastBitswapCancel, one status per targeted
peer of the directory snapshot. -/
def BroadcastBitswapCancel (t : Transport) (now : Nat) (dir : List PeerInfo)
    (cids : List Cid) : List BroadcastCancelStatus :=
  (targetPeers dir).map (sendCancelToPeer t now cids)

/-- Modelled from the spec: the shared wall-clock deadline for phase 2 of a
WANT+CANCEL broadcast, computed once at phase-1 start and applied uniformly
to every peer (spec sections 4.2 and 9, design note on the shared
deadline). -/
def cancelDeadline (now secondsBetween : Nat) : Nat :=
  now + 1000 * secondsBetween

/-- Modelled from the spec: the two-phase per-peer WANT+CANCEL operation.
Phase 1 sends the WANT at phase-1 start; phase 2 sends the CANCEL at the
shared deadline, independently of whether phase 1 succeeded for this peer;
both outcomes are recorded in separate fields. -/
def sendWantCancelToPeer (t : Transport) (now secondsBetween : Nat) (cids : List Cid)
    (p : PeerInfo) : BroadcastWantCancelStatus :=
  let wt := chooseWantType p
  let wr := t p.peer (buildWantMessage cids wt)
  let cr := t p.peer (buildCancelMessage cids)
  { peer := p.peer
    connectedAddresses :=
      if wr.error.isNone then wr.addresses
      else if cr.error.isNone then cr.addresses
      else []
    wantStatus :=
      { sendStatus :=
          { timestampBeforeSend := now
            sendDurationMillis := wr.durationMillis
            error := wr.error }
        requestTypeSent := some wt }
    cancelStatus :=
      { timestampBeforeSend := cancelDeadline now secondsBetween
        sendDurationMillis := cr.durationMillis
        error := cr.error } }

/-- Modelled from the spec: BroadcastBitswapWantCancel, one combined status
per targeted peer of the directory snapshot. -/
def BroadcastBitswapWantCancel (t : Transport) (now : Nat) (dir : List PeerInfo)
    (cids : List Cid) (secondsBetween : Nat) : List BroadcastWantCancelStatus :=
  (targetPeers dir).map (sendWantCancelToPeer t now secondsBetween cids)

/-- The two phases of a WANT+CANCEL broadcast, in the order they are
attempted for a single peer. -/
inductive WantCancelPhase
  | wantPhase
  | cancelPhase
deriving DecidableEq, Repr

/-- One send attempt made to a peer during a WANT+CANCEL broadcast. -/
structure SendAttempt where
  phase : WantCancelPhase
  time : Nat
  message : List Entry
deriving DecidableEq, Repr

/-- Modelled from the spec: the ordered sequence of send attempts made to a
single peer during a WANT+CANCEL broadcast; the want is attempted strictly
before the cancel, and the cancel attempt starts at the shared deadline. -/
def wantCancelAttempts (now secondsBetween : Nat) (cids : List Cid) (p : PeerInfo) :
    List SendAttempt :=
  [ { phase := .wantPhase, time := now,
      message := buildWantMessage cids (chooseWantType p) },
    { phase := .cancelPhase, time := cancelDeadline now secondsBetween,
      message := buildCancelMessage cids } ]

/-- An EventSubscriber: a unique identifier plus the two notification
capabilities of api.go, each returning an optional error (none meaning the
Go nil error). -/
structure Subscriber where
  id : String
  bitswapMessageReceived : Nat → PeerID → BitswapMessage → Option String
  connectionEventRecorded : Nat → PeerID → ConnectionEvent → Option String

/-- An event recorded by the monitor, of either of the two kinds delivered
to subscribers. -/
inductive Event
  | bitswapMsg (timestamp : Nat) (peer : PeerID) (msg : BitswapMessage)
  | connEvent (timestamp : Nat) (peer : PeerID) (ev : ConnectionEvent)
deriving DecidableEq, Repr

/-- Delivery of one event to one subscriber, dispatching to the matching
notification method; the result is the error returned by the subscriber. -/
def notify (s : Subscriber) : Event → Option String
  | .bitswapMsg ts p m => s.bitswapMessageReceived ts p m
  | .connEvent ts p e => s.connectionEventRecorded ts p e

/-- The collision error returned by Subscribe, corresponding to
ErrAlreadySubscribed in api.go. -/
inductive SubscriptionError
  | alreadySubscribed
deriving DecidableEq, Repr

/-- Modelled from the spec: Subscribe of the Event Subscription Registry
(the registry implementation is not under src). Fails with the collision
error, leaving the subscriber set unchanged, if an active subscription with
the same identifier exists; otherwise registers the subscriber. -/
def subscribe (st : List Subscriber) (sub : Subscriber) :
    Option SubscriptionError × List Subscriber :=
  if st.any (fun s => s.id == sub.id) then (some .alreadySubscribed, st)
  else (none, st ++ [sub])

/-- Modelled from the spec: Unsubscribe of the Event Subscription Registry.
Removes the subscription for the identifier of the given subscriber if
present; it returns no error and is a no-op on an unknown identifier. -/
def unsubscribe (st : List Subscriber) (sub : Subscriber) : List Subscriber :=
  st.filter (fun s => s.id != sub.id)

/-- Modelled from the spec: dispatch of one recorded event. Every currently
subscribed subscriber is notified; a subscriber whose notification call
returns an error is removed from the subscription set, with no retry. -/
def dispatch (st : List Subscriber) (e : Event) : List Subscriber :=
  st.filter (fun s => (notify s e).isNone)

/-- The subscriber set after the first n events of a run have been
dispatched, starting from the given set. -/
def stateAfter (st : List Subscriber) : List Event → Nat → List Subscriber
  | _, 0 => st
  | [], _ + 1 => st
  | e :: rest, n + 1 => stateAfter (dispatch st e) rest n

/-- Modelled from the spec: the sequence of events delivered during a run
to the subscriber with the given identifier, in delivery order. An event is
delivered to a subscriber exactly when that subscriber is still in the set
at the moment the event is dispatched. -/
def deliveredTo (st : List Subscriber) (id : String) : List Event → List Event
  | [] => []
  | e :: rest =>
    if st.any (fun s => s.id == id) then
      e :: deliveredTo (dispatch st e) id rest
    else
      deliveredTo (dispatch st e) id rest

/-- Sample peer that accepts full blocks, used for concrete evaluations. -/
def peerA : PeerInfo :=
  { peer := "A", connected := true, supportsBitswap := true,
    acceptsBlocks := true, addresses := ["addrA"] }

/-- Sample peer that cannot accept full blocks. -/
def peerB : PeerInfo :=
  { peer := "B", connected := true, supportsBitswap := true,
    acceptsBlocks := false, addresses := ["addrB"] }

/-- Sample peer that is not connected and therefore not targeted. -/
def peerOff : PeerInfo :=
  { peer := "C", connected := false, supportsBitswap := true,
    acceptsBlocks := true, addresses := [] }

/-- Sample directory snapshot with two targeted peers and one untargeted. -/
def sampleDir : List PeerInfo := [peerA, peerB, peerOff]

/-- Sample list of requested content identifiers. -/
def sampleCids : List Cid := [42]

/-- Sample transport where every send succeeds. -/
def okTransport : Transport :=
  fun _ _ => { durationMillis := 5, addresses := ["conn"], error := none }

/-- Sample transport where every send fails with a timeout. -/
def failTransport : Transport :=
  fun _ _ => { durationMillis := 7, addresses := ["conn"], error := some "timeout" }

/-- Sample transport failing only for peer B, succeeding elsewhere. -/
def mixedTransport : Transport :=
  fun pid m =>
    if pid == "B" then { durationMillis := 7, addresses := [], error := some "timeout" }
    else okTransport pid m

/-- Sample subscriber whose notification calls always return an error. -/
def errSub : Subscriber :=
  { id := "s1"
    bitswapMessageReceived := fun _ _ _ => some "boom"
    connectionEventRecorded := fun _ _ _ => some "boom" }

/-- Sample subscriber whose notification calls always succeed. -/
def subOK : Subscriber :=
  { id := "s2"
    bitswapMessageReceived := fun _ _ _ => none
    connectionEventRecorded := fun _ _ _ => none }

/-- Sample recorded Bitswap message. -/
def sampleMsg : BitswapMessage :=
  { wantlistEntries := [], fullWantList := false, blocks := [7],
    blockPresences := [], connectedAddresses := ["addrA"] }

/-- Sample connection event as recorded by the monitor. -/
def sampleConnEvent : Event :=
  .connEvent 5 "A" { remote := "addrA", connectionEventType := .Connected }

/-- Sample Bitswap message event as recorded by the monitor. -/
def sampleMsgEvent : Event := .bitswapMsg 6 "A" sampleMsg

lemma sendWantToPeer_peer (t : Transport) (now : Nat) (cids : List Cid) (p : PeerInfo) :
    (sendWantToPeer t now cids p).status.peer = p.peer := rfl

lemma sendCancelToPeer_peer (t : Transport) (now : Nat) (cids : List Cid) (p : PeerInfo) :
    (sendCancelToPeer t now cids p).status.peer = p.peer := rfl

lemma sendWantCancelToPeer_peer (t : Transport) (now sb : Nat) (cids : List Cid)
    (p : PeerInfo) : (sendWantCancelToPeer t now sb cids p).peer = p.peer := rfl

lemma sendWantToPeer_error (t : Transport) (now : Nat) (cids : List Cid) (p : PeerInfo) :
    (sendWantToPeer t now cids p).status.sendStatus.error
      = (t p.peer (buildWantMessage cids (chooseWantType p))).error := rfl

lemma sendWantToPeer_addresses (t : Transport) (now : Nat) (cids : List Cid) (p : PeerInfo) :
    (sendWantToPeer t now cids p).status.connectedAddresses
      = (if (t p.peer (buildWantMessage cids (chooseWantType p))).error.isNone
         then (t p.peer (buildWantMessage cids (chooseWantType p))).addresses
         else []) := rfl

lemma sendCancelToPeer_error (t : Transport) (now : Nat) (cids : List Cid) (p : PeerInfo) :
    (sendCancelToPeer t now cids p).status.sendStatus.error
      = (t p.peer (buildCancelMessage cids)).error := rfl

lemma sendCancelToPeer_addresses (t : Transport) (now : Nat) (cids : List Cid) (p : PeerInfo) :
    (sendCancelToPeer t now cids p).status.connectedAddresses
      = (if (t p.peer (buildCancelMessage cids)).error.isNone
         then (t p.peer (buildCancelMessage cids)).addresses
         else []) := rfl

/-- C1: every broadcast operation returns exactly one status entry per peer
of the directory snapshot that is connected and supports Bitswap, in
snapshot order and whatever the transport does to any send; peers that are
not connected or lack protocol support are excluded from the targeted set
rather than reported as failures. -/
theorem broadcast_one_status_per_targeted_peer
    (t : Transport) (now : Nat) (dir : List PeerInfo) (cids : List Cid)
    (secondsBetween : Nat) :
    ((BroadcastBitswapWant t now dir cids).map (fun s => s.status.peer)
        = (targetPeers dir).map PeerInfo.peer)
  ∧ ((BroadcastBitswapCancel t now dir cids).map (fun s => s.status.peer)
        = (targetPeers dir).map PeerInfo.peer)
  ∧ ((BroadcastBitswapWantCancel t now dir cids secondsBetween).map
        BroadcastWantCancelStatus.peer = (targetPeers dir).map PeerInfo.peer)
  ∧ (∀ p ∈ dir, targeted p = false → p ∉ targetPeers dir) := by
  refine ⟨?_, ?_, ?_, ?_⟩
  · unfold BroadcastBitswapWant
    rw [List.map_map]
    have h : ((fun s : BroadcastWantStatus => s.status.peer) ∘ sendWantToPeer t now cids)
        = PeerInfo.peer := funext fun p => rfl
    rw [h]
  · unfold BroadcastBitswapCancel
    rw [List.map_map]
    have h : ((fun s : BroadcastCancelStatus => s.status.peer) ∘ sendCancelToPeer t now cids)
        = PeerInfo.peer := funext fun p => rfl
    rw [h]
  · unfold BroadcastBitswapWantCancel
    rw [List.map_map]
    have h : (BroadcastWantCancelStatus.peer ∘ sendWantCancelToPeer t now secondsBetween cids)
        = PeerInfo.peer := funext fun p => rfl
    rw [h]
  · intro p _ hfalse hmem
    have := (List.mem_filter.mp hmem).2
    rw [hfalse] at this
    exact Bool.false_ne_true this

/-- Witness for C1 at a concrete directory, transport and CID list. -/
theorem broadcast_one_status_per_targeted_peer_spot :
    ((BroadcastBitswapWant failTransport 0 sampleDir sampleCids).map (fun s => s.status.peer)
        = (targetPeers sampleDir).map PeerInfo.peer)
  ∧ peerOff ∈ sampleDir ∧ targeted peerOff = false ∧ peerOff ∉ targetPeers sampleDir :=
  ⟨(broadcast_one_status_per_targeted_peer failTransport 0 sampleDir sampleCids 3).1,
   by decide, by decide,
   (broadcast_one_status_per_targeted_peer failTransport 0 sampleDir sampleCids 3).2.2.2
     peerOff (by decide) (by decide)⟩

/-- C2: per-peer failure isolation. If two transports agree on every peer
other than q, then every targeted peer other than q receives exactly the
same want and cancel status under both, so a send failure at q can neither
abort nor alter the recorded outcome of any other peer; the error of a
failed send is recorded in that peer status record, and the broadcast as a
whole still returns a full status list of the targeted length. -/
theorem broadcast_per_peer_failure_isolation
    (t1 t2 : Transport) (now : Nat) (cids : List Cid) (dir : List PeerInfo)
    (q : PeerID) (p : PeerInfo)
    (hagree : ∀ r m, r ≠ q → t1 r m = t2 r m)
    (_hp : p ∈ targetPeers dir) (hpq : p.peer ≠ q) :
    (sendWantToPeer t1 now cids p = sendWantToPeer t2 now cids p)
  ∧ (sendCancelToPeer t1 now cids p = sendCancelToPeer t2 now cids p)
  ∧ ((sendWantToPeer t1 now cids p).status.sendStatus.error
      = (t1 p.peer (buildWantMessage cids (chooseWantType p))).error)
  ∧ ((BroadcastBitswapWant t1 now dir cids).length = (targetPeers dir).length) := by
  refine ⟨?_, ?_, rfl, ?_⟩
  · have h := hagree p.peer (buildWantMessage cids (chooseWantType p)) hpq
    simp only [sendWantToPeer]
    rw [h]
  · have h := hagree p.peer (buildCancelMessage cids) hpq
    simp only [sendCancelToPeer]
    rw [h]
  · unfold BroadcastBitswapWant
    exact List.length_map _ _

/-- Witness for C2: a transport that times out exactly for peer B leaves
the status of peer A identical to the all-success transport. -/
theorem broadcast_per_peer_failure_isolation_spot :
    sendWantToPeer mixedTransport 0 sampleCids peerA
      = sendWantToPeer okTransport 0 sampleCids peerA :=
  (broadcast_per_peer_failure_isolation mixedTransport okTransport 0 sampleCids sampleDir
    "B" peerA
    (fun r m h => by simp [mixedTransport, h])
    (by decide) (by decide)).1

/-- C4: in a WANT+CANCEL broadcast the cancel phase of every peer starts at
the single shared deadline of phase-1 start plus secondsBetween seconds
(1000 milliseconds each), hence at least that long after the want phase
start; the deadline does not depend on the transport, so it is independent
of the want send latency of the peer; and the attempt sequence places the
want strictly before the cancel. -/
theorem wantcancel_shared_deadline_gap
    (t : Transport) (now secondsBetween : Nat) (cids : List Cid) (p : PeerInfo) :
    ((sendWantCancelToPeer t now secondsBetween cids p).cancelStatus.timestampBeforeSend
        = now + 1000 * secondsBetween)
  ∧ ((sendWantCancelToPeer t now secondsBetween cids p).wantStatus.sendStatus.timestampBeforeSend
        + 1000 * secondsBetween
      ≤ (sendWantCancelToPeer t now secondsBetween cids p).cancelStatus.timestampBeforeSend)
  ∧ (∀ t2 : Transport,
      (sendWantCancelToPeer t2 now secondsBetween cids p).cancelStatus.timestampBeforeSend
        = (sendWantCancelToPeer t now secondsBetween cids p).cancelStatus.timestampBeforeSend)
  ∧ ((wantCancelAttempts now secondsBetween cids p).map SendAttempt.phase
        = [WantCancelPhase.wantPhase, WantCancelPhase.cancelPhase]) :=
  ⟨rfl, Nat.le_refl _, fun _ => rfl, rfl⟩

/-- C5: the WANT message built for a peer has exactly one non-cancel entry
per requested CID, in order, all carrying the want type chosen for that
peer; the chosen type is want-block exactly when the peer accepts full
blocks and want-have otherwise; and the type sent is recorded in the
requestTypeSent field of the status of that peer. -/
theorem broadcast_want_entry_per_cid_and_type
    (t : Transport) (now : Nat) (cids : List Cid) (p : PeerInfo) :
    ((buildWantMessage cids (chooseWantType p)).map Entry.cid = cids)
  ∧ (∀ e ∈ buildWantMessage cids (chooseWantType p),
        e.wantType = chooseWantType p ∧ e.cancel = false)
  ∧ (p.acceptsBlocks = true → chooseWantType p = WantType.wantBlock)
  ∧ (p.acceptsBlocks = false → chooseWantType p = WantType.wantHave)
  ∧ ((sendWantToPeer t now cids p).requestTypeSent = some (chooseWantType p)) := by
  refine ⟨?_, ?_, ?_, ?_, rfl⟩
  · unfold buildWantMessage
    rw [List.map_map]
    have h : (Entry.cid ∘ fun c : Cid =>
        ({ cid := c, priority := 1, wantType := chooseWantType p, cancel := false,
           sendDontHave := false } : Entry)) = id := funext fun c => rfl
    rw [h, List.map_id]
  · intro e he
    unfold buildWantMessage at he
    obtain ⟨c, _, rfl⟩ := List.mem_map.mp he
    exact ⟨rfl, rfl⟩
  · intro h
    simp [chooseWantType, h]
  · intro h
    simp [chooseWantType, h]

/-- Witness for C5 at the concrete scenario of the spec: peer A is
want-block capable and peer B is want-have only. -/
theorem broadcast_want_entry_per_cid_and_type_spot :
    chooseWantType peerA = WantType.wantBlock
  ∧ chooseWantType peerB = WantType.wantHave
  ∧ (sendWantToPeer okTransport 0 sampleCids peerA).requestTypeSent
      = some (chooseWantType peerA)
  ∧ (buildWantMessage sampleCids (chooseWantType peerB)).map Entry.cid = sampleCids :=
  ⟨(broadcast_want_entry_per_cid_and_type okTransport 0 sampleCids peerA).2.2.1 (by decide),
   (broadcast_want_entry_per_cid_and_type okTransport 0 sampleCids peerB).2.2.2.1 (by decide),
   (broadcast_want_entry_per_cid_and_type okTransport 0 sampleCids peerA).2.2.2.2,
   (broadcast_want_entry_per_cid_and_type okTransport 0 sampleCids peerB).1⟩

/-- C8: in the two-phase broadcast the cancel outcome of a peer always
reflects the transport result of the CANCEL send, whatever the want result
was, and the want outcome is recorded separately in the want status field
from the transport result of the WANT send. -/
theorem wantcancel_cancel_always_attempted
    (t : Transport) (now secondsBetween : Nat) (cids : List Cid) (p : PeerInfo) :
    ((sendWantCancelToPeer t now secondsBetween cids p).cancelStatus.error
        = (t p.peer (buildCancelMessage cids)).error)
  ∧ ((sendWantCancelToPeer t now secondsBetween cids p).cancelStatus.sendDurationMillis
        = (t p.peer (buildCancelMessage cids)).durationMillis)
  ∧ ((sendWantCancelToPeer t now secondsBetween cids p).wantStatus.sendStatus.error
        = (t p.peer (buildWantMessage cids (chooseWantType p))).error) :=
  ⟨rfl, rfl, rfl⟩

/-- C10: in the WANT and CANCEL broadcasts, every returned status whose
error field is set has an empty connectedAddresses field; the addresses are
populated only on success. -/
theorem broadcast_addresses_empty_on_error
    (t : Transport) (now : Nat) (dir : List PeerInfo) (cids : List Cid) :
    (∀ s ∈ BroadcastBitswapWant t now dir cids,
        s.status.sendStatus.error ≠ none → s.status.connectedAddresses = [])
  ∧ (∀ s ∈ BroadcastBitswapCancel t now dir cids,
        s.status.sendStatus.error ≠ none → s.status.connectedAddresses = []) := by
  constructor
  · intro s hs herr
    unfold BroadcastBitswapWant at hs
    obtain ⟨p, _, rfl⟩ := List.mem_map.mp hs
    rw [sendWantToPeer_error] at herr
    rw [sendWantToPeer_addresses, if_neg]
    intro hnone
    exact herr (Option.isNone_iff_eq_none.mp hnone)
  · intro s hs herr
    unfold BroadcastBitswapCancel at hs
    obtain ⟨p, _, rfl⟩ := List.mem_map.mp hs
    rw [sendCancelToPeer_error] at herr
    rw [sendCancelToPeer_addresses, if_neg]
    intro hnone
    exact herr (Option.isNone_iff_eq_none.mp hnone)

/-- Witness for C10: with the failing transport the status of peer A has
its error set and no connected addresses. -/
theorem broadcast_addresses_empty_on_error_spot :
    (sendWantToPeer failTransport 0 sampleCids peerA).status.connectedAddresses = [] :=
  (broadcast_addresses_empty_on_error failTransport 0 sampleDir sampleCids).1
    (sendWantToPeer failTransport 0 sampleCids peerA) (by decide) (by decide)

lemma not_mem_dispatch (s : Subscriber) (st : List Subscriber) (e : Event)
    (h : s ∉ st) : s ∉ dispatch st e := by
  intro hmem
  exact h (List.mem_of_mem_filter hmem)

lemma not_mem_dispatch_of_error (s : Subscriber) (st : List Subscriber) (e : Event)
    (herr : notify s e ≠ none) : s ∉ dispatch st e := by
  intro hmem
  have h := (List.mem_filter.mp hmem).2
  exact herr (Option.isNone_iff_eq_none.mp h)

lemma not_mem_stateAfter (s : Subscriber) :
    ∀ (events : List Event) (st : List Subscriber), s ∉ st →
      ∀ n, s ∉ stateAfter st events n
  | [], _, h, 0 => h
  | [], _, h, _ + 1 => h
  | _ :: _, _, h, 0 => h
  | e :: rest, st, h, n + 1 =>
    not_mem_stateAfter s rest (dispatch st e) (not_mem_dispatch s st e h) n

/-- C3: a subscriber whose notification call returns an error on the event
at position i of a run is removed by that dispatch and is absent from the
subscriber set at every later point of the run; since an event is delivered
exactly to the members of the set at its dispatch, the subscriber never
receives any subsequent event of either type. -/
theorem subscriber_error_never_notified_again :
    ∀ (events : List Event) (st : List Subscriber) (i : Nat)
      (hi : i < events.length) (s : Subscriber),
      notify s (events.get ⟨i, hi⟩) ≠ none →
      ∀ j, i < j → s ∉ stateAfter st events j
  | [], _, i, hi, _, _ => absurd hi (Nat.not_lt_zero i)
  | e :: rest, st, 0, _, s, herr => by
    intro j hj
    obtain ⟨k, rfl⟩ : ∃ k, j = k + 1 := ⟨j - 1, (Nat.succ_pred_eq_of_pos hj).symm⟩
    exact not_mem_stateAfter s rest (dispatch st e)
      (not_mem_dispatch_of_error s st e herr) k
  | e :: rest, st, i + 1, hi, s, herr => by
    intro j hj
    have hjpos : 0 < j := Nat.lt_of_le_of_lt (Nat.zero_le i) (Nat.lt_of_succ_lt hj)
    obtain ⟨k, rfl⟩ : ∃ k, j = k + 1 := ⟨j - 1, (Nat.succ_pred_eq_of_pos hjpos).symm⟩
    exact subscriber_error_never_notified_again rest (dispatch st e) i
      (Nat.lt_of_succ_lt_succ hi) s herr k (Nat.lt_of_succ_lt_succ hj)

/-- Witness for C3: a subscriber erroring on the first event of a two-event
run is gone from the set at both later points of the run. -/
theorem subscriber_error_never_notified_again_spot :
    notify errSub sampleConnEvent ≠ none
  ∧ errSub ∉ stateAfter [errSub, subOK] [sampleConnEvent, sampleMsgEvent] 1
  ∧ errSub ∉ stateAfter [errSub, subOK] [sampleConnEvent, sampleMsgEvent] 2 :=
  ⟨by simp [notify, errSub, sampleConnEvent],
   subscriber_error_never_notified_again [sampleConnEvent, sampleMsgEvent]
     [errSub, subOK] 0 (by decide) errSub (by simp [notify, errSub, sampleConnEvent])
     1 (by decide),
   subscriber_error_never_notified_again [sampleConnEvent, sampleMsgEvent]
     [errSub, subOK] 0 (by decide) errSub (by simp [notify, errSub, sampleConnEvent])
     2 (by decide)⟩

lemma any_unsubscribe_self_false (st : List Subscriber) (sub : Subscriber) :
    (unsubscribe st sub).any (fun s => s.id == sub.id) = false := by
  rw [List.any_eq_false]
  intro s hs
  have h := (List.mem_filter.mp hs).2
  simp only [bne_iff_ne, ne_eq] at h
  simp [h]

/-- C6: Subscribe returns the collision error exactly when a subscription
with the same identifier is active at call time; in that case the
subscriber set is unchanged; and after unsubscribing the identifier a new
Subscribe with it succeeds. -/
theorem subscribe_collision_iff_state_unchanged
    (st : List Subscriber) (sub : Subscriber) :
    ((subscribe st sub).1 = some SubscriptionError.alreadySubscribed
        ↔ st.any (fun s => s.id == sub.id) = true)
  ∧ ((subscribe st sub).1 ≠ none → (subscribe st sub).2 = st)
  ∧ ((subscribe (unsubscribe st sub) sub).1 = none) := by
  refine ⟨?_, ?_, ?_⟩
  · unfold subscribe
    by_cases h : st.any (fun s => s.id == sub.id) = true
    · simp [h]
    · simp [h]
  · unfold subscribe
    by_cases h : st.any (fun s => s.id == sub.id) = true
    · simp [h]
    · simp [h]
  · unfold subscribe
    rw [any_unsubscribe_self_false st sub]
    simp

/-- Witness for C6: subscribing an already-subscribed identifier fails and
leaves the set unchanged; after unsubscribing it, subscribing succeeds. -/
theorem subscribe_collision_iff_state_unchanged_spot :
    ((subscribe [errSub] errSub).1 = some SubscriptionError.alreadySubscribed)
  ∧ ((subscribe [errSub] errSub).2 = [errSub])
  ∧ ((subscribe (unsubscribe [errSub] errSub) errSub).1 = none) :=
  ⟨(subscribe_collision_iff_state_unchanged [errSub] errSub).1.mpr (by decide),
   (subscribe_collision_iff_state_unchanged [errSub] errSub).2.1 (by decide),
   (subscribe_collision_iff_state_unchanged [errSub] errSub).2.2⟩

/-- C7: Unsubscribe is idempotent, is a no-op when no subscription carries
the identifier, never returns an error (its result type carries none), and
after it no subscription with the removed identifier remains. -/
theorem unsubscribe_idempotent_never_fails
    (st : List Subscriber) (sub : Subscriber) :
    (unsubscribe (unsubscribe st sub) sub = unsubscribe st sub)
  ∧ (st.all (fun s => s.id != sub.id) = true → unsubscribe st sub = st)
  ∧ (∀ s ∈ unsubscribe st sub, (s.id == sub.id) = false) := by
  refine ⟨?_, ?_, ?_⟩
  · unfold unsubscribe
    rw [List.filter_filter]
    apply List.filter_congr
    intro s _
    rw [Bool.and_self]
  · intro h
    unfold unsubscribe
    rw [List.all_eq_true] at h
    exact List.filter_eq_self.mpr h
  · intro s hs
    have h := (List.mem_filter.mp hs).2
    simp only [bne_iff_ne, ne_eq] at h
    simp [h]

/-- Witness for C7: removing an absent identifier is a no-op and removing
twice equals removing once. -/
theorem unsubscribe_idempotent_never_fails_spot :
    (unsubscribe (unsubscribe [errSub] errSub) errSub = unsubscribe [errSub] errSub)
  ∧ (unsubscribe [subOK] errSub = [subOK]) :=
  ⟨(unsubscribe_idempotent_never_fails [errSub] errSub).1,
   (unsubscribe_idempotent_never_fails [subOK] errSub).2.1 (by decide)⟩

lemma any_id_dispatch_false (st : List Subscriber) (e : Event) (id : String)
    (h : st.any (fun s => s.id == id) = false) :
    (dispatch st e).any (fun s => s.id == id) = false := by
  rw [List.any_eq_false] at h ⊢
  intro s hs
  exact h s (List.mem_of_mem_filter hs)

lemma deliveredTo_nil_of_absent (id : String) :
    ∀ (events : List Event) (st : List Subscriber),
      st.any (fun s => s.id == id) = false → deliveredTo st id events = []
  | [], _, _ => rfl
  | e :: rest, st, h => by
    unfold deliveredTo
    rw [h]
    simp only [Bool.false_eq_true, if_false]
    exact deliveredTo_nil_of_absent id rest (dispatch st e)
      (any_id_dispatch_false st e id h)

lemma deliveredTo_eq_take (id : String) :
    ∀ (events : List Event) (st : List Subscriber),
      ∃ k, deliveredTo st id events = events.take k
  | [], _ => ⟨0, rfl⟩
  | e :: rest, st => by
    by_cases h : st.any (fun s => s.id == id) = true
    · obtain ⟨k, hk⟩ := deliveredTo_eq_take id rest (dispatch st e)
      refine ⟨k + 1, ?_⟩
      unfold deliveredTo
      rw [h, hk]
      simp [List.take_succ_cons]
    · have h0 : st.any (fun s => s.id == id) = false := by
        simpa using h
      exact ⟨0, by rw [deliveredTo_nil_of_absent id (e :: rest) st h0, List.take_zero]⟩

/-- C9: the events delivered to any one subscriber form a prefix of the
recorded run, hence are delivered in recording order; and for any two
subscribers the delivered sequences are sublists of one another in one
direction or the other, so both observe the same relative order of the
events they receive. -/
theorem delivery_order_preserved
    (st : List Subscriber) (events : List Event) (id1 id2 : String) :
    (∃ k, deliveredTo st id1 events = events.take k)
  ∧ List.Sublist (deliveredTo st id1 events) events
  ∧ (List.Sublist (deliveredTo st id1 events) (deliveredTo st id2 events)
      ∨ List.Sublist (deliveredTo st id2 events) (deliveredTo st id1 events)) := by
  obtain ⟨k1, h1⟩ := deliveredTo_eq_take id1 events st
  obtain ⟨k2, h2⟩ := deliveredTo_eq_take id2 events st
  refine ⟨⟨k1, h1⟩, ?_, ?_⟩
  · rw [h1]
    exact List.take_sublist _ _
  · rw [h1, h2]
    rcases Nat.le_total k1 k2 with h | h
    · left
      have heq : events.take k1 = (events.take k2).take k1 := by
        rw [List.take_take, Nat.min_eq_left h]
      rw [heq]
      exact List.take_sublist _ _
    · right
      have heq : events.take k2 = (events.take k1).take k2 := by
        rw [List.take_take, Nat.min_eq_left h]
      rw [heq]
      exact List.take_sublist _ _

end MetricPlugin
